import Mathlib

/-!
Shallow embedding of `src/Translate_Final.py` (SPS-Coatings/PDFTranslation).

The script is a Streamlit app: PDF upload → per-page text extraction via
pdfplumber → Markdown assembly → optional translation via DeepL REST or an
OpenAI chat completion.  External effects are modelled as explicit
parameters:

* pdfplumber is modelled by a flag `avail` (module flag
  `_PDFPLUMBER_AVAILABLE`), its import error string, and a parse oracle
  `parse : List Nat → Except String (List (Option String))` mapping the
  uploaded bytes to either a raised-exception message or the list of pages,
  each page carrying `p.extract_text()` (`none` models Python `None`).
* The DeepL HTTP endpoint is a function `net : DeepLRequest → HttpResult`;
  every request actually issued by the code is recorded in the
  `deepl_calls` field of the produced `Effects`.
* The OpenAI chat-completion endpoint is a function
  `llm : List ChatMessage → Except String String`; issued calls are
  recorded in `llm_calls`.
* Streamlit session state is the structure `SessionState`; the widgets
  `st.info` / `st.warning` / `st.error` / `st.markdown` are recorded in the
  corresponding fields of `Effects`.  Pure display chrome (titles,
  subheaders, spinners) is elided.

Python truthiness of an optional string (`None` and `""` are falsy) is
`truthy`.  Machine integers do not occur; HTTP status codes are `Nat`.
-/

namespace PDFTranslation

/-- Embedding of the module-level dict `DEEPL_SUPPORTED_LANGS`
(code ↦ language name), in source insertion order. -/
def DEEPL_SUPPORTED_LANGS : List (String × String) :=
  [("BG", "Bulgarian"), ("CS", "Czech"), ("DA", "Danish"), ("DE", "German"),
   ("EL", "Greek"), ("EN", "English"), ("ES", "Spanish"), ("ET", "Estonian"),
   ("FI", "Finnish"), ("FR", "French"), ("HU", "Hungarian"),
   ("ID", "Indonesian"), ("IT", "Italian"), ("JA", "Japanese"),
   ("KO", "Korean"), ("LT", "Lithuanian"), ("LV", "Latvian"),
   ("NB", "Norwegian (Bokmål)"), ("NL", "Dutch"), ("PL", "Polish"),
   ("PT", "Portuguese"), ("RO", "Romanian"), ("RU", "Russian"),
   ("SK", "Slovak"), ("SL", "Slovenian"), ("SV", "Swedish"),
   ("TR", "Turkish"), ("UK", "Ukrainian"), ("ZH", "Chinese")]

/-- Embedding of `LANG_NAME_TO_CODE = {v:k for k,v in DEEPL_SUPPORTED_LANGS.items()}`
(language name ↦ code).  The names are pairwise distinct, so an association
list with first-match lookup models the Python dict. -/
def LANG_NAME_TO_CODE : List (String × String) :=
  DEEPL_SUPPORTED_LANGS.map (fun kv => (kv.2, kv.1))

/-- Python truthiness of an optional string: `None` and `""` are falsy
(used for `st.session_state.DEEPL_API_KEY`, `st.session_state.get("analysis_result")`
and the like). -/
def truthy (s : Option String) : Bool :=
  match s with
  | none => false
  | some t => !t.isEmpty

/-- Streamlit session state used by the script: the two API keys
(initialised to `None` by the `setdefault` loop) and the stored
`"analysis_result"` (absent before the first conversion). -/
structure SessionState where
  OPENAI_API_KEY : Option String
  DEEPL_API_KEY : Option String
  analysis_result : Option String
deriving Repr, DecidableEq

/-- Embedding of the module-level `openai_client` expression:
`OpenAI(api_key=…) if _OPENAI_AVAILABLE and st.session_state.OPENAI_API_KEY else None`.
The client object is represented by the key it wraps. -/
def openai_client (openaiAvailable : Bool) (key : Option String) : Option String :=
  if openaiAvailable && truthy key then key else none

/-- Embedding of `p.extract_text() or ""` (line 131). -/
def extract_text_or_empty (t : Option String) : String :=
  t.getD ""

/-- Embedding of `f"## Page {i}\n\n{text.strip()}"` (line 132);
Python `str.strip()` is modelled by `String.trim`. -/
def page_md (i : Nat) (text : String) : String :=
  "## Page " ++ toString i ++ "\n\n" ++ text.trim

/-- Embedding of the page loop `for i, p in enumerate(pdf.pages, 1)`
(lines 129-133): the list `pages_md` accumulated in document order. -/
def pages_md (pages : List (Option String)) : List String :=
  (List.enumFrom 1 pages).map (fun ip => page_md ip.1 (extract_text_or_empty ip.2))

/-- Embedding of the `st.error` message at lines 122-125. -/
def pdfplumber_import_error_msg (err : String) : String :=
  "pdfplumber import failed.\n\n```python\n" ++ err ++ "\n```"

/-- Embedding of the `st.error` message at line 136. -/
def pdf_parse_failed_msg (ex : String) : String :=
  "PDF parsing failed:\n\n```\n" ++ ex ++ "\n```"

/-- Embedding of `pdf_to_markdown(pdf_bytes)` (lines 117-137).  Returns the
Markdown string together with the list of `st.error` messages emitted.
`avail` and `availErr` are the module flags `_PDFPLUMBER_AVAILABLE` and
`_PDFPLUMBER_ERR`; `parse` is the pdfplumber oracle (an `Except.error ex`
models `pdfplumber.open` raising, caught at line 135). -/
def pdf_to_markdown (avail : Bool) (availErr : String)
    (parse : List Nat → Except String (List (Option String)))
    (pdf_bytes : List Nat) : String × List String :=
  if avail = false then
    ("", [pdfplumber_import_error_msg availErr])
  else
    match parse pdf_bytes with
    | Except.error ex => ("", [pdf_parse_failed_msg ex])
    | Except.ok pages => (String.intercalate "\n\n" (pages_md pages), [])

/-- Provider radio options (line 103-105). -/
inductive Provider
  | o3mini
  | deepl
deriving Repr, DecidableEq

/-- One chat message sent to the OpenAI client (lines 222-225). -/
structure ChatMessage where
  role : String
  content : String
deriving Repr, DecidableEq

/-- A DeepL HTTP request as built at lines 196-204: endpoint URL, the three
form fields, and the `timeout=30` keyword. -/
structure DeepLRequest where
  url : String
  auth_key : Option String
  text : String
  target_lang : String
  timeout : Nat
deriving Repr, DecidableEq

/-- Result of `requests.post`: either a response (status code, parsed
`resp.json()["translations"][*]["text"]` drill-down outcome, and the raw
`resp.text` body) or a raised exception (timeout, connection error) caught
at line 211.  An `Except.error ex` in the `translations` field models the
JSON access itself raising `ex` (malformed body, missing key). -/
inductive HttpResult
  | response (status : Nat) (translations : Except String (List String)) (body : String)
  | raised (ex : String)

/-- Widgets and outbound calls produced by one run through the translation
section: `st.info`, `st.warning`, `st.error`, `st.markdown` contents, and
the network calls actually issued to each backend. -/
structure Effects where
  infos : List String
  warnings : List String
  errors : List String
  markdowns : List String
  deepl_calls : List DeepLRequest
  llm_calls : List (List ChatMessage)
deriving Repr, DecidableEq

/-- The run that renders nothing and calls nothing. -/
def noEffects : Effects :=
  { infos := [], warnings := [], errors := [], markdowns := [],
    deepl_calls := [], llm_calls := [] }

/-- The DeepL endpoint URL (line 197). -/
def deepl_url : String :=
  "https://api-free.deepl.com/v2/translate"

/-- A single-quote character, built by code point to keep string literals
plain ASCII words. -/
def squote : String :=
  String.singleton (Char.ofNat 39)

/-- Python `str(KeyError(k))`, the repr of the missing key (the key between
single quotes): what the f-string interpolates when
`LANG_NAME_TO_CODE[target]` raises at line 201. -/
def py_key_error_str (k : String) : String :=
  squote ++ k ++ squote

/-- Embedding of `f"DeepL request failed:\n\n" + code fence + ex` (line 212). -/
def deepl_request_failed_msg (ex : String) : String :=
  "DeepL request failed:\n\n```\n" ++ ex ++ "\n```"

/-- Embedding of `f"DeepL error {resp.status_code}: {resp.text}"` (line 210). -/
def deepl_error_msg (status : Nat) (body : String) : String :=
  "DeepL error " ++ toString status ++ ": " ++ body

/-- The request built by the `requests.post` call at lines 196-204: fixed
endpoint, the three form fields (with the session DeepL key as `auth_key`
and the looked-up code as `target_lang`), and `timeout=30`. -/
def mk_deepl_request (deepl_key : Option String) (src_md code : String) : DeepLRequest :=
  { url := deepl_url, auth_key := deepl_key, text := src_md,
    target_lang := code, timeout := 30 }

/-- Embedding of `f"## 🌐 Translated ({target})"` (lines 207 and 228). -/
def translated_heading (target : String) : String :=
  "## 🌐 Translated (" ++ target ++ ")"

/-- Python `str(IndexError())` when `["translations"][0]` hits an empty
list at line 206. -/
def py_index_error_str : String :=
  "list index out of range"

/-- Embedding of the DeepL branch of the translate action (lines 194-212).
Evaluating the `data` dict literal evaluates `LANG_NAME_TO_CODE[target]`
before `requests.post` runs, so an absent key raises `KeyError` (caught at
line 211) with no request issued.  Otherwise exactly one request is issued;
its outcome comes from the `net` oracle. -/
def deepl_branch (deepl_key : Option String) (src_md target : String)
    (net : DeepLRequest → HttpResult) : Effects :=
  match LANG_NAME_TO_CODE.lookup target with
  | none =>
    { noEffects with
      errors := [deepl_request_failed_msg (py_key_error_str target)] }
  | some code =>
    let req : DeepLRequest := mk_deepl_request deepl_key src_md code
    match net req with
    | HttpResult.raised ex =>
      { noEffects with
        errors := [deepl_request_failed_msg ex], deepl_calls := [req] }
    | HttpResult.response status translations body =>
      if status = 200 then
        match translations with
        | Except.ok (t :: _) =>
          { noEffects with
            markdowns := [translated_heading target, t], deepl_calls := [req] }
        | Except.ok [] =>
          { noEffects with
            errors := [deepl_request_failed_msg py_index_error_str],
            deepl_calls := [req] }
        | Except.error ex =>
          { noEffects with
            errors := [deepl_request_failed_msg ex], deepl_calls := [req] }
      else
        { noEffects with
          errors := [deepl_error_msg status body], deepl_calls := [req] }

/-- Embedding of the system message built at lines 215-219. -/
def o3mini_system_msg (target : String) : String :=
  "Translate the following Markdown into " ++ target ++
  ", preserving all headings and formatting. Respond ONLY with the translation."

/-- Embedding of `f"o3-mini translation error:\n\n" + code fence + ex` (line 231). -/
def o3mini_error_msg (ex : String) : String :=
  "o3-mini translation error:\n\n```\n" ++ ex ++ "\n```"

/-- Python `str(AttributeError)` raised by `openai_client.chat` when the
module-level client is `None`. -/
def py_none_chat_error : String :=
  squote ++ "NoneType" ++ squote ++ " object has no attribute " ++
    squote ++ "chat" ++ squote

/-- The two-message list sent to the chat-completion endpoint (lines 222-225). -/
def o3mini_messages (src_md target : String) : List ChatMessage :=
  [{ role := "system", content := o3mini_system_msg target },
   { role := "user", content := src_md }]

/-- Embedding of the o3-mini branch of the translate action (lines 213-231).
If the module-level client is `None`, the attribute access raises before any
API call, caught at line 230.  Otherwise one chat-completion call is made;
its text is returned `.strip()`-ped, and any raised exception is caught at
line 230 and rendered with its message. -/
def o3mini_branch (client : Option String) (src_md target : String)
    (llm : List ChatMessage → Except String String) : Effects :=
  match client with
  | none =>
    { noEffects with errors := [o3mini_error_msg py_none_chat_error] }
  | some _ =>
    let msgs := o3mini_messages src_md target
    match llm msgs with
    | Except.error ex =>
      { noEffects with errors := [o3mini_error_msg ex], llm_calls := [msgs] }
    | Except.ok content =>
      { noEffects with
        markdowns := [translated_heading target, content.trim],
        llm_calls := [msgs] }

/-- Embedding of one run through the translation section (lines 174-231),
given the provider radio value, the selectbox value `target`, and whether
the "Translate Markdown" button returned `True` this run.  The section
never writes to session state, so the state is returned unchanged. -/
def translation_container (openaiAvailable : Bool) (state : SessionState)
    (provider : Provider) (target : String) (translate_pressed : Bool)
    (net : DeepLRequest → HttpResult)
    (llm : List ChatMessage → Except String String) : Effects × SessionState :=
  if truthy state.analysis_result = false then
    ({ noEffects with infos := ["Run analysis/conversion first."] }, state)
  else if target = "English" then
    ({ noEffects with infos := ["Already in English — no translation needed."] }, state)
  else
    let openaiWarn : List String :=
      if provider = Provider.o3mini then
        match openai_client openaiAvailable state.OPENAI_API_KEY with
        | none => ["Add OpenAI key to use o3-mini translation."]
        | some _ => []
      else []
    let deeplWarn : List String :=
      if provider = Provider.deepl && !truthy state.DEEPL_API_KEY then
        ["Add DeepL key for translation."]
      else []
    let warns := openaiWarn ++ deeplWarn
    if translate_pressed then
      let src_md := state.analysis_result.getD ""
      let eff :=
        match provider with
        | Provider.deepl => deepl_branch state.DEEPL_API_KEY src_md target net
        | Provider.o3mini =>
          o3mini_branch (openai_client openaiAvailable state.OPENAI_API_KEY)
            src_md target llm
      ({ eff with warnings := warns ++ eff.warnings }, state)
    else
      ({ noEffects with warnings := warns }, state)

/-- Embedding of the convert action (lines 156-170): if the button was
pressed with no upload, warn (line 161) and leave state alone; otherwise
run `pdf_to_markdown` and store the result under `"analysis_result"`
(line 170).  Returns the new state and the warning/error messages shown. -/
def analyze_action (analyze_pressed : Bool) (uploaded_pdf : Option (List Nat))
    (avail : Bool) (availErr : String)
    (parse : List Nat → Except String (List (Option String)))
    (state : SessionState) : SessionState × List String :=
  if analyze_pressed = false then
    (state, [])
  else
    match uploaded_pdf with
    | none => (state, ["Please upload a PDF first."])
    | some pdf_bytes =>
      let r := pdf_to_markdown avail availErr parse pdf_bytes
      ({ state with analysis_result := some r.1 }, r.2)

/-! Helper lemmas shared by the claim theorems. -/

/-- The page loop emits exactly one block per page. -/
theorem pages_md_length (pages : List (Option String)) :
    (pages_md pages).length = pages.length := by
  simp [pages_md]

/-- The block at 0-based position `i` is the heading for page `i + 1`
followed by that page text, trimmed. -/
theorem pages_md_getElem? (pages : List (Option String)) (i : Nat)
    (text : Option String) (h : pages[i]? = some text) :
    (pages_md pages)[i]? = some (page_md (i + 1) (extract_text_or_empty text)) := by
  simp [pages_md, List.getElem?_map, List.getElem?_enumFrom, h, Nat.add_comm]

/-- On the DeepL path with a supported target, exactly one request — the
one built at lines 196-204 — is issued, whatever the endpoint answers. -/
theorem deepl_branch_calls_of_lookup (deepl_key : Option String)
    (src_md target code : String) (net : DeepLRequest → HttpResult)
    (h : LANG_NAME_TO_CODE.lookup target = some code) :
    (deepl_branch deepl_key src_md target net).deepl_calls =
      [mk_deepl_request deepl_key src_md code] := by
  unfold deepl_branch
  rw [h]
  cases hn : net (mk_deepl_request deepl_key src_md code) with
  | raised ex => simp [hn]
  | response status translations body =>
    by_cases hs : status = 200
    · subst hs
      cases translations with
      | error ex => simp [hn]
      | ok l => cases l <;> simp [hn]
    · simp [hn, hs]

/-! Claim theorems. -/

/-- C1: for every valid PDF, `pdf_to_markdown` returns the blocks
`## Page n` + blank line + trimmed page text, one per page in physical
order with n starting at 1 and increasing by 1, joined by a blank-line
separator; a page with no extractable text contributes a block with an
empty body, and no page is dropped, duplicated or reordered (block list
has the same length as the page list, and the block at position i is
determined by the page at position i). -/
theorem extractor_output_is_ordered_page_blocks (availErr : String)
    (parse : List Nat → Except String (List (Option String)))
    (pdf_bytes : List Nat) (pages : List (Option String))
    (hp : parse pdf_bytes = Except.ok pages) :
    (pdf_to_markdown true availErr parse pdf_bytes).1 =
        String.intercalate "\n\n" (pages_md pages) ∧
      (pages_md pages).length = pages.length ∧
      ∀ i text, pages[i]? = some text →
        (pages_md pages)[i]? =
          some ("## Page " ++ toString (i + 1) ++ "\n\n" ++ (text.getD "").trim) := by
  refine ⟨?_, pages_md_length pages, ?_⟩
  · simp [pdf_to_markdown, hp]
  · intro i text h
    rw [pages_md_getElem? pages i text h]
    rfl

/-- Witness for C1 on a concrete two-page document whose second page has no
extractable text. -/
theorem extractor_output_is_ordered_page_blocks_witness :
    ((fun _ : List Nat =>
        (Except.ok [some " Hello ", none] : Except String (List (Option String)))) [] =
        Except.ok [some " Hello ", none]) ∧
      (pdf_to_markdown true ""
          (fun _ =>
            (Except.ok [some " Hello ", none] : Except String (List (Option String)))) []).1 =
        String.intercalate "\n\n" (pages_md [some " Hello ", none]) :=
  ⟨rfl,
    (extractor_output_is_ordered_page_blocks ""
      (fun _ => Except.ok [some " Hello ", none]) [] [some " Hello ", none] rfl).1⟩

/-- C5: when pdfplumber is unavailable or the bytes are not a parseable
PDF, `pdf_to_markdown` returns the empty document together with a surfaced
error message; being a total function, the embedding raises nothing past
the shell boundary. -/
theorem extractor_failure_yields_empty_doc (avail : Bool) (availErr : String)
    (parse : List Nat → Except String (List (Option String)))
    (pdf_bytes : List Nat)
    (h : avail = false ∨ ∃ ex, parse pdf_bytes = Except.error ex) :
    (pdf_to_markdown avail availErr parse pdf_bytes).1 = "" ∧
      (pdf_to_markdown avail availErr parse pdf_bytes).2 ≠ [] := by
  rcases h with h | ⟨ex, h⟩
  · subst h
    simp [pdf_to_markdown]
  · by_cases ha : avail = false
    · subst ha
      simp [pdf_to_markdown]
    · simp [pdf_to_markdown, ha, h]

/-- Witness for C5 at a concrete failing parse. -/
theorem extractor_failure_yields_empty_doc_witness :
    (true = false ∨ ∃ ex, (fun _ : List Nat =>
        (Except.error "not a PDF" : Except String (List (Option String)))) [] =
          Except.error ex) ∧
      (pdf_to_markdown true "" (fun _ => Except.error "not a PDF") []).1 = "" ∧
      (pdf_to_markdown true "" (fun _ => Except.error "not a PDF") []).2 ≠ [] :=
  ⟨Or.inr ⟨"not a PDF", rfl⟩,
    extractor_failure_yields_empty_doc true "" (fun _ => Except.error "not a PDF") []
      (Or.inr ⟨"not a PDF", rfl⟩)⟩

/-- C9: extraction is deterministic and idempotent — with the external
parser modelled as a fixed function of the bytes, two runs on identical
bytes yield byte-identical Markdown and identical error output. -/
theorem extraction_deterministic (avail : Bool) (availErr : String)
    (parse : List Nat → Except String (List (Option String)))
    (b1 b2 : List Nat) (h : b1 = b2) :
    pdf_to_markdown avail availErr parse b1 = pdf_to_markdown avail availErr parse b2 := by
  rw [h]

/-- Witness for C9 on concrete identical byte strings. -/
theorem extraction_deterministic_witness :
    ([37, 80] = ([37, 80] : List Nat)) ∧
      pdf_to_markdown true "" (fun _ => Except.ok [some "x"]) [37, 80] =
        pdf_to_markdown true "" (fun _ => Except.ok [some "x"]) [37, 80] :=
  ⟨rfl, extraction_deterministic true "" (fun _ => Except.ok [some "x"]) [37, 80] [37, 80] rfl⟩

/-- C10: a valid zero-page PDF extracts to the empty string — the same
value returned on parse failure — and the shell then treats the session as
having no Markdown: the translation section shows only the
"Run analysis/conversion first." notice, issues no network calls, and
leaves state unchanged. -/
theorem empty_pdf_indistinguishable_from_failure (availErr failMsg : String)
    (parse parse2 : List Nat → Except String (List (Option String)))
    (b b2 : List Nat)
    (hok : parse b = Except.ok []) (hfail : parse2 b2 = Except.error failMsg)
    (oa : Bool) (okey dkey : Option String) (provider : Provider)
    (target : String) (pressed : Bool)
    (net : DeepLRequest → HttpResult)
    (llm : List ChatMessage → Except String String) :
    (pdf_to_markdown true availErr parse b).1 = "" ∧
      (pdf_to_markdown true availErr parse b).1 =
        (pdf_to_markdown true availErr parse2 b2).1 ∧
      translation_container oa
          { OPENAI_API_KEY := okey, DEEPL_API_KEY := dkey,
            analysis_result := some (pdf_to_markdown true availErr parse b).1 }
          provider target pressed net llm =
        ({ noEffects with infos := ["Run analysis/conversion first."] },
          { OPENAI_API_KEY := okey, DEEPL_API_KEY := dkey,
            analysis_result := some (pdf_to_markdown true availErr parse b).1 }) := by
  have hempty : String.intercalate "\n\n" (pages_md []) = "" := rfl
  have h1 : (pdf_to_markdown true availErr parse b).1 = "" := by
    simp [pdf_to_markdown, hok, hempty]
  have hfalse : truthy (some "") = false := rfl
  refine ⟨h1, ?_, ?_⟩
  · rw [h1]
    simp [pdf_to_markdown, hfail]
  · rw [h1]
    simp [translation_container, hfalse]

/-- Witness for C10 at concrete oracles. -/
theorem empty_pdf_indistinguishable_from_failure_witness :
    ((fun _ : List Nat => (Except.ok [] : Except String (List (Option String)))) [] =
        Except.ok []) ∧
      ((fun _ : List Nat =>
          (Except.error "bad" : Except String (List (Option String)))) [] =
        Except.error "bad") ∧
      (pdf_to_markdown true "" (fun _ => Except.ok []) []).1 = "" :=
  ⟨rfl, rfl,
    (empty_pdf_indistinguishable_from_failure "" "bad"
      (fun _ => Except.ok []) (fun _ => Except.error "bad") [] [] rfl rfl
      true none none Provider.deepl "French" false
      (fun _ => HttpResult.raised "x") (fun _ => Except.error "x")).1⟩

/-- C6: with a Markdown document present and target language "English",
the translation section is a no-op: it shows only the
"no translation needed" notice, issues zero DeepL and zero LLM calls, and
leaves the session state unchanged. -/
theorem english_target_is_noop (oa : Bool) (state : SessionState)
    (provider : Provider) (pressed : Bool)
    (net : DeepLRequest → HttpResult)
    (llm : List ChatMessage → Except String String)
    (h : truthy state.analysis_result = true) :
    translation_container oa state provider "English" pressed net llm =
        ({ noEffects with infos := ["Already in English — no translation needed."] },
          state) ∧
      (translation_container oa state provider "English" pressed net llm).1.deepl_calls = [] ∧
      (translation_container oa state provider "English" pressed net llm).1.llm_calls = [] ∧
      (translation_container oa state provider "English" pressed net llm).2 = state := by
  have heq : translation_container oa state provider "English" pressed net llm =
      ({ noEffects with infos := ["Already in English — no translation needed."] },
        state) := by
    simp [translation_container, h]
  exact ⟨heq, by rw [heq]; rfl, by rw [heq]; rfl, by rw [heq]⟩

/-- Witness for C6 at a concrete state with a stored Markdown document. -/
theorem english_target_is_noop_witness :
    truthy (some "## Page 1\n\nHello") = true ∧
      translation_container true
          { OPENAI_API_KEY := some "ok", DEEPL_API_KEY := some "dk",
            analysis_result := some "## Page 1\n\nHello" }
          Provider.deepl "English" true (fun _ => HttpResult.raised "x")
          (fun _ => Except.error "x") =
        ({ noEffects with infos := ["Already in English — no translation needed."] },
          { OPENAI_API_KEY := some "ok", DEEPL_API_KEY := some "dk",
            analysis_result := some "## Page 1\n\nHello" }) :=
  ⟨rfl,
    (english_target_is_noop true
      { OPENAI_API_KEY := some "ok", DEEPL_API_KEY := some "dk",
        analysis_result := some "## Page 1\n\nHello" }
      Provider.deepl true (fun _ => HttpResult.raised "x")
      (fun _ => Except.error "x") rfl).1⟩

/-- C3: for every target-language name with no entry in
`LANG_NAME_TO_CODE`, the DeepL branch fails — the dict lookup raises while
the request arguments are being built, surfaced as a caught error — and the
list of issued network calls is empty. -/
theorem unsupported_language_fails_before_network (deepl_key : Option String)
    (src_md target : String) (net : DeepLRequest → HttpResult)
    (h : LANG_NAME_TO_CODE.lookup target = none) :
    deepl_branch deepl_key src_md target net =
        { noEffects with
          errors := [deepl_request_failed_msg (py_key_error_str target)] } ∧
      (deepl_branch deepl_key src_md target net).deepl_calls = [] := by
  have heq : deepl_branch deepl_key src_md target net =
      { noEffects with
        errors := [deepl_request_failed_msg (py_key_error_str target)] } := by
    simp [deepl_branch, h]
  exact ⟨heq, by rw [heq]; rfl⟩

/-- Witness for C3 at a language name outside the table. -/
theorem unsupported_language_fails_before_network_witness :
    LANG_NAME_TO_CODE.lookup "Klingon" = none ∧
      (deepl_branch (some "dk") "## Page 1\n\nHello" "Klingon"
          (fun _ => HttpResult.response 200 (Except.ok ["x"]) "x")).deepl_calls = [] :=
  ⟨by decide,
    (unsupported_language_fails_before_network (some "dk") "## Page 1\n\nHello"
      "Klingon" (fun _ => HttpResult.response 200 (Except.ok ["x"]) "x")
      (by decide)).2⟩

/-- C4: on the DeepL branch with a supported target, a 200 response whose
parsed body has first translation text t yields t rendered verbatim under
the translated heading; a non-200 status yields the error message carrying
the status code and response body; a raised network exception yields the
request-failed message; and every request issued carries `timeout = 30`. -/
theorem deepl_response_handling (deepl_key : Option String)
    (src_md target code : String) (net : DeepLRequest → HttpResult)
    (hcode : LANG_NAME_TO_CODE.lookup target = some code) :
    (∀ t rest body,
        net (mk_deepl_request deepl_key src_md code) =
            HttpResult.response 200 (Except.ok (t :: rest)) body →
        deepl_branch deepl_key src_md target net =
          { noEffects with
            markdowns := [translated_heading target, t],
            deepl_calls := [mk_deepl_request deepl_key src_md code] }) ∧
      (∀ status translations body, ¬status = 200 →
        net (mk_deepl_request deepl_key src_md code) =
            HttpResult.response status translations body →
        deepl_branch deepl_key src_md target net =
          { noEffects with
            errors := [deepl_error_msg status body],
            deepl_calls := [mk_deepl_request deepl_key src_md code] }) ∧
      (∀ ex, net (mk_deepl_request deepl_key src_md code) = HttpResult.raised ex →
        deepl_branch deepl_key src_md target net =
          { noEffects with
            errors := [deepl_request_failed_msg ex],
            deepl_calls := [mk_deepl_request deepl_key src_md code] }) ∧
      (∀ r, r ∈ (deepl_branch deepl_key src_md target net).deepl_calls →
        r.timeout = 30) := by
  refine ⟨?_, ?_, ?_, ?_⟩
  · intro t rest body hnet
    simp [deepl_branch, hcode, hnet]
  · intro status translations body hs hnet
    simp [deepl_branch, hcode, hnet, hs]
  · intro ex hnet
    simp [deepl_branch, hcode, hnet]
  · intro r hr
    rw [deepl_branch_calls_of_lookup deepl_key src_md target code net hcode] at hr
    simp only [List.mem_singleton] at hr
    rw [hr]
    rfl

/-- Witness for C4: a 200 response carrying "Bonjour" is relayed verbatim,
through a request with timeout 30. -/
theorem deepl_response_handling_witness :
    LANG_NAME_TO_CODE.lookup "French" = some "FR" ∧
      deepl_branch (some "dk") "## Page 1\n\nHello" "French"
          (fun _ => HttpResult.response 200 (Except.ok ["Bonjour"]) "raw") =
        { noEffects with
          markdowns := [translated_heading "French", "Bonjour"],
          deepl_calls := [mk_deepl_request (some "dk") "## Page 1\n\nHello" "FR"] } :=
  ⟨by decide,
    (deepl_response_handling (some "dk") "## Page 1\n\nHello" "French" "FR"
      (fun _ => HttpResult.response 200 (Except.ok ["Bonjour"]) "raw")
      (by decide)).1 "Bonjour" [] "raw" rfl⟩

/-- C7: on the o3-mini branch the system instruction names the target
language by its display name and asks for Markdown-preserving,
translation-only output; the source Markdown is the single user message;
a successful completion is returned whitespace-trimmed; and any raised
API or client failure yields the error message carrying the underlying
exception text. -/
theorem o3mini_prompt_and_result (client_key src_md target : String)
    (llm : List ChatMessage → Except String String) :
    o3mini_system_msg target =
        "Translate the following Markdown into " ++ target ++
          ", preserving all headings and formatting. Respond ONLY with the translation." ∧
      o3mini_messages src_md target =
        [{ role := "system", content := o3mini_system_msg target },
         { role := "user", content := src_md }] ∧
      (∀ content, llm (o3mini_messages src_md target) = Except.ok content →
        o3mini_branch (some client_key) src_md target llm =
          { noEffects with
            markdowns := [translated_heading target, content.trim],
            llm_calls := [o3mini_messages src_md target] }) ∧
      (∀ ex, llm (o3mini_messages src_md target) = Except.error ex →
        o3mini_branch (some client_key) src_md target llm =
          { noEffects with
            errors := [o3mini_error_msg ex],
            llm_calls := [o3mini_messages src_md target] }) := by
  refine ⟨rfl, rfl, ?_, ?_⟩
  · intro content hllm
    simp [o3mini_branch, hllm]
  · intro ex hllm
    simp [o3mini_branch, hllm]

/-- Witness for C7: a completion with surrounding whitespace is returned
trimmed, and the two messages are the system instruction and the source. -/
theorem o3mini_prompt_and_result_witness :
    ((fun _ : List ChatMessage =>
        (Except.ok "  Bonjour  " : Except String String)) (o3mini_messages "## Page 1\n\nHello" "French") =
      Except.ok "  Bonjour  ") ∧
      o3mini_branch (some "ok") "## Page 1\n\nHello" "French"
          (fun _ => Except.ok "  Bonjour  ") =
        { noEffects with
          markdowns := [translated_heading "French", "  Bonjour  ".trim],
          llm_calls := [o3mini_messages "## Page 1\n\nHello" "French"] } :=
  ⟨rfl,
    (o3mini_prompt_and_result "ok" "## Page 1\n\nHello" "French"
      (fun _ => Except.ok "  Bonjour  ")).2.2.1 "  Bonjour  " rfl⟩

/-- A session state with a stored Markdown document and both API keys
unset, as after a successful conversion with no credentials entered. -/
def no_key_state : SessionState :=
  { OPENAI_API_KEY := none, DEEPL_API_KEY := none,
    analysis_result := some "## Page 1\n\nHello" }

/-- C2 counterexample: with the DeepL provider selected and the DeepL key
unset, the section does show the warning, yet pressing Translate still
issues an outbound DeepL request — the warning does not block the action. -/
theorem missing_credential_counterexample :
    "Add DeepL key for translation." ∈
        (translation_container false no_key_state Provider.deepl "French" true
          (fun _ => HttpResult.raised "timeout")
          (fun _ => Except.error "e")).1.warnings ∧
      ¬(translation_container false no_key_state Provider.deepl "French" true
          (fun _ => HttpResult.raised "timeout")
          (fun _ => Except.error "e")).1.deepl_calls = [] := by
  decide

/-- C2 (amended): with Markdown present and a non-English target, a
missing credential for the selected provider produces the warning, but the
translate button stays active: on the o3-mini path pressing it issues no
LLM call and no DeepL call (the absent client fails locally), while on the
DeepL path with a supported target pressing it still issues the HTTP
request, carrying the unset key as `auth_key`. -/
theorem missing_credential_warns_but_does_not_block (oa : Bool)
    (state : SessionState) (target code : String)
    (net : DeepLRequest → HttpResult)
    (llm : List ChatMessage → Except String String)
    (hmd : truthy state.analysis_result = true) (hne : ¬target = "English") :
    (openai_client oa state.OPENAI_API_KEY = none →
      "Add OpenAI key to use o3-mini translation." ∈
          (translation_container oa state Provider.o3mini target true net llm).1.warnings ∧
        (translation_container oa state Provider.o3mini target true net llm).1.llm_calls = [] ∧
        (translation_container oa state Provider.o3mini target true net llm).1.deepl_calls = []) ∧
      (truthy state.DEEPL_API_KEY = false →
        LANG_NAME_TO_CODE.lookup target = some code →
        "Add DeepL key for translation." ∈
            (translation_container oa state Provider.deepl target true net llm).1.warnings ∧
          (translation_container oa state Provider.deepl target true net llm).1.deepl_calls =
            [mk_deepl_request state.DEEPL_API_KEY (state.analysis_result.getD "") code]) := by
  constructor
  · intro hclient
    refine ⟨?_, ?_, ?_⟩ <;>
      simp [translation_container, hmd, hne, hclient, o3mini_branch, noEffects]
  · intro hkey hcode
    constructor
    · simp [translation_container, hmd, hne, hkey]
    · have hcalls := deepl_branch_calls_of_lookup state.DEEPL_API_KEY
        (state.analysis_result.getD "") target code net hcode
      simp [translation_container, hmd, hne, hkey, hcalls]

/-- Witness for the amended C2 on the DeepL path with the key unset. -/
theorem missing_credential_warns_but_does_not_block_witness :
    truthy no_key_state.analysis_result = true ∧
      ¬"French" = "English" ∧
      truthy no_key_state.DEEPL_API_KEY = false ∧
      LANG_NAME_TO_CODE.lookup "French" = some "FR" ∧
      (translation_container false no_key_state Provider.deepl "French" true
          (fun _ => HttpResult.raised "timeout")
          (fun _ => Except.error "e")).1.deepl_calls =
        [mk_deepl_request no_key_state.DEEPL_API_KEY
          (no_key_state.analysis_result.getD "") "FR"] :=
  ⟨rfl, by decide, rfl, by decide,
    ((missing_credential_warns_but_does_not_block false no_key_state "French" "FR"
      (fun _ => HttpResult.raised "timeout") (fun _ => Except.error "e")
      rfl (by decide)).2 rfl (by decide)).2⟩

/-- C8: the translation section never writes session state, so any
translation run — in particular a failed one — leaves the stored Markdown
conversion result (indeed the whole state) unchanged; and the convert
action only ever writes the `analysis_result` field, so any conversion run
— in particular a failed one — leaves both credentials unchanged. -/
theorem partial_results_preserved (oa : Bool) (state : SessionState)
    (provider : Provider) (target : String) (pressed : Bool)
    (net : DeepLRequest → HttpResult)
    (llm : List ChatMessage → Except String String)
    (ap : Bool) (upload : Option (List Nat)) (avail : Bool) (availErr : String)
    (parse : List Nat → Except String (List (Option String))) :
    (translation_container oa state provider target pressed net llm).2 = state ∧
      (analyze_action ap upload avail availErr parse state).1.OPENAI_API_KEY =
        state.OPENAI_API_KEY ∧
      (analyze_action ap upload avail availErr parse state).1.DEEPL_API_KEY =
        state.DEEPL_API_KEY := by
  refine ⟨?_, ?_, ?_⟩
  · unfold translation_container
    repeat' split <;> try rfl
  · unfold analyze_action
    repeat' split <;> try rfl
  · unfold analyze_action
    repeat' split <;> try rfl

end PDFTranslation
